import Mathlib

/-!
# frp control / work-connection protocol

A shallow embedding of `cmd/frps/control.go` (server side: `controlWorker`,
`checkProxy`, `readControlMsgFromClient`) and `models/client/client.go`
(client side: `GetLocalConn`, `GetRemoteConn`, `StartTunnel`).

The Go functions act on sockets, on `server.ProxyServer` objects and on a
timer.  Each function is embedded as a pure function from the outcomes the
environment hands back (what `ReadLine` returned, whether a `Write`
succeeded, what `WaitUserConn` returned, whether the watchdog fired) to the
ordered list of calls the function makes (its trace) together with the way
it ended.  Log calls are not recorded.

Records are kept at the level of the Go structs: a `Write` event carries the
struct that was passed to `json.Marshal`; the bytes on the wire are that
encoding followed by one newline.  The JSON decoder is a parameter.
-/

namespace frp

/-! ## Data model -/

/-- Identity of a `*conn.Conn`. -/
abbrev Conn := Nat

namespace consts

/-- Modelled from the spec: the `consts` package is not among the sources;
section 6 gives `CTL_CONN = 1`. -/
def CtlConn : Int := 1

/-- Modelled from the spec: the `consts` package is not among the sources;
section 6 gives `WORK_CONN = 2`. -/
def WorkConn : Int := 2

/-- Modelled from the spec: the `consts` package is not among the sources;
section 6 gives `HEARTBEAT_REQ = 3`. -/
def CSHeartBeatReq : Int := 3

/-- Modelled from the spec: the `consts` package is not among the sources;
section 6 gives `HEARTBEAT_RES = 4`. -/
def SCHeartBeatRes : Int := 4

end consts

/-- Modelled from the spec: the status values of a `ProxyServer`
(section 3: `status ∈ {Idle, Working, Closed}`); the declaration lives in the
`consts` package, which is not among the sources. -/
inductive Status where
  | Idle
  | Working
  | Closed
  deriving DecidableEq, Repr

/-- The request record `msg.ClientCtlReq` (fields `Type`, `ProxyName`,
`Passwd`; `Type` is a reserved word, hence `Type_`). -/
structure ClientCtlReq where
  Type_ : Int
  ProxyName : String
  Passwd : String
  deriving DecidableEq, Repr

/-- The response record `msg.ClientCtlRes` (embedded `GeneralRes`: `Code`, `Msg`). -/
structure ClientCtlRes where
  Code : Int
  Msg : String
  deriving DecidableEq, Repr

/-- The fields of `server.ProxyServer` that `control.go` reads. -/
structure ProxyServer where
  Name : String
  Passwd : String
  Status : Status
  deriving DecidableEq, Repr

/-- The process-wide map `server.ProxyServers`. -/
abbrev Registry := String → Option ProxyServer

/-- What `c.ReadLine()` handed back: `err == io.EOF`, another error (with
the value `c.IsClosed()` has at that moment), or a line. -/
inductive ReadResult where
  | eof
  | error (connClosed : Bool)
  | line (content : String)
  deriving DecidableEq, Repr

/-- Result of `json.Unmarshal` on a request line: an error, the JSON value
`null` (no error; a pointer target is set to nil, a struct target is left at
its zero value), or a record. -/
inductive UnmarshalResult where
  | error
  | null
  | value (r : ClientCtlReq)
  deriving DecidableEq, Repr

/-- What is handed to `json.Marshal` before `c.Write(string(buf) + "\n")`. -/
inductive Payload where
  | res (r : ClientCtlRes)
  | req (r : ClientCtlReq)
  deriving DecidableEq, Repr

/-- The calls a function makes, in order.  Proxy objects are named by their
`Name` field. -/
inductive Event where
  | readLine (c : Conn) (r : ReadResult)
  | write (c : Conn) (p : Payload) (ok : Bool)
  | connClose (c : Conn)
  | sleep (seconds : Nat)
  | proxyStart (name : String)
  | getNewCliConn (name : String) (c : Conn)
  | waitUserConn (name : String)
  | proxyClose (name : String)
  | goReadControlMsg (name : String) (c : Conn)
  | timerStart
  | timerReset
  | timerStop
  | connectServer (host : String) (port : Int) (c : Conn) (ok : Bool)
  | goJoin (l : Conn) (r : Conn)
  deriving DecidableEq, Repr

/-- How a run ended: the function returned, it is still blocked on the
environment (the supplied outcomes ran out), or it dereferenced a nil
pointer. -/
inductive Exit where
  | returned
  | blocked
  | crashed
  deriving DecidableEq, Repr

/-- A trace together with the way the run ended. -/
structure Outcome where
  trace : List Event
  exit : Exit
  deriving DecidableEq, Repr

/-! ## Server: `checkProxy` -/

/-- The three results of `checkProxy` and the calls it made on the proxy. -/
structure CheckResult where
  succ : Bool
  info : String
  needRes : Bool
  calls : List Event
  deriving DecidableEq, Repr

/-- `checkProxy` (control.go 123-175).  `startErr` is what `s.Start()`
returns if it is called (`none` for a nil error, `some e` for `err.Error() = e`). -/
def checkProxy (ProxyServers : Registry) (startErr : Option String)
    (req : ClientCtlReq) (c : Conn) : CheckResult :=
  match ProxyServers req.ProxyName with
  | none =>
    ⟨false, "ProxyName [" ++ req.ProxyName ++ "] is not exist", true, []⟩
  | some s =>
    if req.Passwd ≠ s.Passwd then
      ⟨false, "ProxyName [" ++ req.ProxyName ++ "], password is not correct", true, []⟩
    else if req.Type_ = consts.CtlConn then
      if s.Status ≠ Status.Idle then
        ⟨false, "ProxyName [" ++ req.ProxyName ++ "], already in use", true, []⟩
      else
        match startErr with
        | some e =>
          ⟨false, "ProxyName [" ++ req.ProxyName ++ "], start proxy error: " ++ e, true,
            [Event.proxyStart s.Name]⟩
        | none => ⟨true, "", true, [Event.proxyStart s.Name]⟩
    else if req.Type_ = consts.WorkConn then
      if s.Status ≠ Status.Working then
        ⟨false, "", false, []⟩
      else
        ⟨true, "", false, [Event.getNewCliConn s.Name c]⟩
    else
      ⟨false, "ProxyName [" ++ req.ProxyName ++ "], type [" ++ toString req.Type_ ++ "] unsupport",
        true, []⟩

/-! ## Server: `controlWorker` -/

/-- One turn of the dispatch loop as the environment decides it:
`s.WaitUserConn()` returned `true` (shutdown), or it returned `false` (a user
connection is queued) and the following `c.Write` succeeded or failed. -/
inductive DispatchInput where
  | shutdown
  | ready (writeOk : Bool)
  deriving DecidableEq, Repr

/-- The `for` loop of `controlWorker` (control.go 92-114) with the two lines
after it.  With no outcome left the handler is blocked in `WaitUserConn`. -/
def dispatchLoop (s : ProxyServer) (c : Conn) : List DispatchInput → Outcome
  | [] => ⟨[Event.waitUserConn s.Name], Exit.blocked⟩
  | DispatchInput.shutdown :: _ => ⟨[Event.waitUserConn s.Name], Exit.returned⟩
  | DispatchInput.ready true :: rest =>
    let out := dispatchLoop s c rest
    ⟨Event.waitUserConn s.Name
        :: Event.write c (Payload.req ⟨consts.WorkConn, "", ""⟩) true :: out.trace, out.exit⟩
  | DispatchInput.ready false :: _ =>
    ⟨[Event.waitUserConn s.Name, Event.write c (Payload.req ⟨consts.WorkConn, "", ""⟩) false,
      Event.proxyClose s.Name], Exit.returned⟩

/-- The outcomes the environment supplies to one run of `controlWorker`. -/
structure WorkerEnv where
  firstRead : ReadResult
  startErr : Option String
  replyWriteOk : Bool
  dispatch : List DispatchInput
  deriving DecidableEq, Repr

/-- The deferred `c.Close()` of `controlWorker` (control.go 64): it runs when
the function returns. -/
def deferredClose (c : Conn) : Exit → List Event
  | Exit.returned => [Event.connClose c]
  | _ => []

/-- `controlWorker` (control.go 39-118).  Decoding goes into a pointer to the
pointer `clientCtlReq`, so a `null` line leaves it nil and `checkProxy`
dereferences it. -/
def controlWorker (unmarshal : String → UnmarshalResult) (ProxyServers : Registry)
    (c : Conn) (env : WorkerEnv) : Outcome :=
  match env.firstRead with
  | ReadResult.line res =>
    match unmarshal res with
    | UnmarshalResult.error => ⟨[Event.readLine c env.firstRead], Exit.returned⟩
    | UnmarshalResult.null => ⟨[Event.readLine c env.firstRead], Exit.crashed⟩
    | UnmarshalResult.value clientCtlReq =>
      let chk := checkProxy ProxyServers env.startErr clientCtlReq c
      let clientCtlRes : ClientCtlRes := if !chk.succ then ⟨1, chk.info⟩ else ⟨0, ""⟩
      if chk.needRes then
        if !env.replyWriteOk then
          ⟨Event.readLine c env.firstRead :: chk.calls
              ++ [Event.write c (Payload.res clientCtlRes) false, Event.sleep 1, Event.connClose c],
            Exit.returned⟩
        else
          match ProxyServers clientCtlReq.ProxyName with
          | none =>
            ⟨Event.readLine c env.firstRead :: chk.calls
                ++ [Event.write c (Payload.res clientCtlRes) true, Event.connClose c],
              Exit.returned⟩
          | some s =>
            let out := dispatchLoop s c env.dispatch
            ⟨Event.readLine c env.firstRead :: chk.calls
                ++ [Event.write c (Payload.res clientCtlRes) true, Event.goReadControlMsg s.Name c]
                ++ out.trace ++ deferredClose c out.exit,
              out.exit⟩
      else
        ⟨Event.readLine c env.firstRead :: chk.calls, Exit.returned⟩
  | _ => ⟨[Event.readLine c env.firstRead], Exit.returned⟩

/-! ## Server: `readControlMsgFromClient` -/

/-- What happens next to the heartbeat reader: the watchdog set up by
`time.AfterFunc` fires (its callback `f` runs) while the reader is blocked in
`c.ReadLine()` or just before it tests `isContinueRead` again, or the pending
`c.ReadLine()` returns; `writeOk` is the outcome of the `c.Write` if one
follows. -/
inductive HbInput where
  | timerFire (inReadLine : Bool)
  | read (r : ReadResult) (writeOk : Bool)
  deriving DecidableEq, Repr

/-- Where the reader is: blocked in `c.ReadLine()` with the current value of
`isContinueRead`, or returned. -/
inductive HbState where
  | reading (isContinueRead : Bool)
  | returned
  deriving DecidableEq, Repr

/-- The `continue` of the read loop: back to the test `for isContinueRead`;
leaving the loop runs the deferred `timer.Stop()`. -/
def hbContinue (isContinueRead : Bool) : List Event × HbState :=
  if isContinueRead then ([], HbState.reading true) else ([Event.timerStop], HbState.returned)

/-- One environment step of `readControlMsgFromClient` (control.go 179-226):
the callback `f` (179-183), or one pass through the loop body (188-225).
Decoding goes into a fresh record, so a `null` line leaves the zero record.
`json.Marshal` of the response record has no failing case, so the branch at
215-218 is not taken. -/
def hbStep (unmarshal : String → UnmarshalResult) (s : ProxyServer) (c : Conn) :
    HbState → HbInput → List Event × HbState
  | HbState.returned, _ => ([], HbState.returned)
  | HbState.reading _, HbInput.timerFire true =>
    ([Event.proxyClose s.Name], HbState.reading false)
  | HbState.reading _, HbInput.timerFire false =>
    ([Event.proxyClose s.Name, Event.timerStop], HbState.returned)
  | HbState.reading isContinueRead, HbInput.read r writeOk =>
    match r with
    | ReadResult.eof =>
      ([Event.readLine c r, Event.proxyClose s.Name, Event.timerStop], HbState.returned)
    | ReadResult.error true => ([Event.readLine c r, Event.timerStop], HbState.returned)
    | ReadResult.error false =>
      (Event.readLine c r :: (hbContinue isContinueRead).1, (hbContinue isContinueRead).2)
    | ReadResult.line content =>
      let clientCtlReq : Option ClientCtlReq :=
        match unmarshal content with
        | UnmarshalResult.error => none
        | UnmarshalResult.null => some ⟨0, "", ""⟩
        | UnmarshalResult.value q => some q
      match clientCtlReq with
      | none => (Event.readLine c r :: (hbContinue isContinueRead).1, (hbContinue isContinueRead).2)
      | some q =>
        if consts.CSHeartBeatReq = q.Type_ then
          (Event.readLine c r :: Event.timerReset
              :: Event.write c (Payload.res ⟨consts.SCHeartBeatRes, ""⟩) writeOk
              :: (hbContinue isContinueRead).1, (hbContinue isContinueRead).2)
        else
          (Event.readLine c r :: (hbContinue isContinueRead).1, (hbContinue isContinueRead).2)

/-- Runs `hbStep` along a list of environment steps. -/
def hbRun (unmarshal : String → UnmarshalResult) (s : ProxyServer) (c : Conn) :
    HbState → List HbInput → List Event × HbState
  | st, [] => ([], st)
  | st, i :: rest =>
    let r := hbStep unmarshal s c st i
    let t := hbRun unmarshal s c r.2 rest
    (r.1 ++ t.1, t.2)

/-- `readControlMsgFromClient` (control.go 177-227): `isContinueRead := true`,
the timer is armed, then the loop runs. -/
def readControlMsgFromClient (unmarshal : String → UnmarshalResult) (s : ProxyServer)
    (c : Conn) (inputs : List HbInput) : List Event × HbState :=
  let t := hbRun unmarshal s c (HbState.reading true) inputs
  (Event.timerStart :: t.1, t.2)

/-! ## Client: `ProxyClient` -/

/-- `client.ProxyClient`. -/
structure ProxyClient where
  Name : String
  Passwd : String
  LocalPort : Int
  deriving DecidableEq, Repr

/-- What `conn.ConnectServer` handed back: the handle and whether `err` is nil. -/
structure DialResult where
  c : Conn
  ok : Bool
  deriving DecidableEq, Repr

/-- Result of a client call: the trace and whether the returned `err` is nil. -/
structure ClientResult where
  trace : List Event
  ok : Bool
  deriving DecidableEq, Repr

/-- `GetLocalConn` (client.go 18-24). -/
def ProxyClient.GetLocalConn (p : ProxyClient) (dial : DialResult) : ClientResult :=
  ⟨[Event.connectServer "127.0.0.1" p.LocalPort dial.c dial.ok], dial.ok⟩

/-- `GetRemoteConn` (client.go 26-55); the deferred function closes `c` when
the returned `err` is not nil. -/
def ProxyClient.GetRemoteConn (p : ProxyClient) (addr : String) (port : Int)
    (dial : DialResult) (writeOk : Bool) : ClientResult :=
  if !dial.ok then
    ⟨[Event.connectServer addr port dial.c false, Event.connClose dial.c], false⟩
  else
    let req : ClientCtlReq := ⟨consts.WorkConn, p.Name, p.Passwd⟩
    if !writeOk then
      ⟨[Event.connectServer addr port dial.c true, Event.write dial.c (Payload.req req) false,
        Event.connClose dial.c], false⟩
    else
      ⟨[Event.connectServer addr port dial.c true, Event.write dial.c (Payload.req req) true], true⟩

/-- `StartTunnel` (client.go 58-73). -/
def ProxyClient.StartTunnel (p : ProxyClient) (serverAddr : String) (serverPort : Int)
    (localDial remoteDial : DialResult) (writeOk : Bool) : ClientResult :=
  let l := p.GetLocalConn localDial
  if !l.ok then ⟨l.trace, false⟩
  else
    let r := p.GetRemoteConn serverAddr serverPort remoteDial writeOk
    if !r.ok then ⟨l.trace ++ r.trace, false⟩
    else ⟨l.trace ++ r.trace ++ [Event.goJoin localDial.c remoteDial.c], true⟩

/-! ## Observers on traces -/

/-- The response records written on `c`. -/
def replies (c : Conn) : List Event → List ClientCtlRes
  | [] => []
  | Event.write c1 (Payload.res r) _ :: rest =>
    if c1 = c then r :: replies c rest else replies c rest
  | _ :: rest => replies c rest

/-- The request records written on `c`. -/
def requestsWritten (c : Conn) : List Event → List ClientCtlReq
  | [] => []
  | Event.write c1 (Payload.req r) _ :: rest =>
    if c1 = c then r :: requestsWritten c rest else requestsWritten c rest
  | _ :: rest => requestsWritten c rest

/-- Whether an event is a `c.Write`. -/
def Event.isWrite : Event → Bool
  | Event.write _ _ _ => true
  | _ => false

/-- Whether a read handed back a line that decodes without error to a record
whose type is `CSHeartBeatReq`. -/
def isHeartbeatLine (unmarshal : String → UnmarshalResult) : ReadResult → Bool
  | ReadResult.line l =>
    match unmarshal l with
    | UnmarshalResult.value q => decide (q.Type_ = consts.CSHeartBeatReq)
    | _ => false
  | _ => false

/-- Whether an event is a read that handed back a heartbeat request. -/
def Event.isHeartbeatRead (unmarshal : String → UnmarshalResult) : Event → Bool
  | Event.readLine _ r => isHeartbeatLine unmarshal r
  | _ => false

/-- Number of heartbeat requests read in a trace. -/
def heartbeatsRead (unmarshal : String → UnmarshalResult) (tr : List Event) : Nat :=
  tr.countP (Event.isHeartbeatRead unmarshal)

/-- Number of `timer.Reset` calls in a trace. -/
def timerResets (tr : List Event) : Nat :=
  tr.count Event.timerReset

/-- Number of `c.Write` calls in a trace. -/
def writeCalls (tr : List Event) : Nat :=
  tr.countP Event.isWrite

/-- The leading results of the dispatch loop that are "ready" with a
successful write. -/
def servedRun (inputs : List DispatchInput) : List DispatchInput :=
  inputs.takeWhile (fun i => decide (i = DispatchInput.ready true))

/-- The first result that is a shutdown or a "ready" whose write fails, if
there is one. -/
def terminator (inputs : List DispatchInput) : Option DispatchInput :=
  (inputs.dropWhile (fun i => decide (i = DispatchInput.ready true))).head?

/-- Number of "ready" results up to and including the terminator. -/
def readyObserved (inputs : List DispatchInput) : Nat :=
  (servedRun inputs).length
    + (if terminator inputs = some (DispatchInput.ready false) then 1 else 0)

/-! ## Fixtures for concrete runs -/

/-- A registry with the single entry `web` / `s` in the given status. -/
def webRegistry (st : Status) : Registry :=
  fun n => if n = "web" then some ⟨"web", "s", st⟩ else none

/-- A decoder defined on five lines: a `CTL_CONN` for `web` with the right and
with a wrong secret, a `WORK_CONN` for `web`, a heartbeat request, and `null`;
every other line is a decoding error. -/
def sampleUnmarshal (line : String) : UnmarshalResult :=
  if line = "ctl web s" then UnmarshalResult.value ⟨consts.CtlConn, "web", "s"⟩
  else if line = "ctl web x" then UnmarshalResult.value ⟨consts.CtlConn, "web", "x"⟩
  else if line = "work web s" then UnmarshalResult.value ⟨consts.WorkConn, "web", "s"⟩
  else if line = "heartbeat" then UnmarshalResult.value ⟨consts.CSHeartBeatReq, "", ""⟩
  else if line = "null" then UnmarshalResult.null
  else UnmarshalResult.error

/-! ## Basic facts about the observers -/

@[simp]
theorem replies_append (c : Conn) (a b : List Event) :
    replies c (a ++ b) = replies c a ++ replies c b := by
  induction a with
  | nil => rfl
  | cons e rest ih =>
    cases e with
    | write c1 p ok =>
      cases p with
      | res r => by_cases h : c1 = c <;> simp [replies, h, ih]
      | req r => simp [replies, ih]
    | _ => simp [replies, ih]

@[simp]
theorem requestsWritten_append (c : Conn) (a b : List Event) :
    requestsWritten c (a ++ b) = requestsWritten c a ++ requestsWritten c b := by
  induction a with
  | nil => rfl
  | cons e rest ih =>
    cases e with
    | write c1 p ok =>
      cases p with
      | res r => simp [requestsWritten, ih]
      | req r => by_cases h : c1 = c <;> simp [requestsWritten, h, ih]
    | _ => simp [requestsWritten, ih]

@[simp]
theorem replies_deferredClose (c c1 : Conn) (x : Exit) :
    replies c (deferredClose c1 x) = [] := by
  cases x <;> rfl

@[simp]
theorem replies_dispatchLoop (c c1 : Conn) (s : ProxyServer) (inputs : List DispatchInput) :
    replies c (dispatchLoop s c1 inputs).trace = [] := by
  induction inputs with
  | nil => rfl
  | cons i rest ih =>
    cases i with
    | shutdown => rfl
    | ready ok => cases ok <;> simp [dispatchLoop, replies, ih]

/-- Every call of the dispatch loop is a `WaitUserConn` on `s`, a write of the
work request on `c`, or a `Close` of `s`. -/
theorem dispatchLoop_events (s : ProxyServer) (c : Conn) (inputs : List DispatchInput) :
    ∀ e ∈ (dispatchLoop s c inputs).trace,
      e = Event.waitUserConn s.Name ∨
      (∃ ok, e = Event.write c (Payload.req ⟨consts.WorkConn, "", ""⟩) ok) ∨
      e = Event.proxyClose s.Name := by
  induction inputs with
  | nil => simp [dispatchLoop]
  | cons i rest ih =>
    cases i with
    | shutdown => simp [dispatchLoop]
    | ready ok =>
      cases ok with
      | false => simp [dispatchLoop]
      | true =>
        intro e he
        simp only [dispatchLoop, List.mem_cons] at he
        rcases he with he | he | he
        · exact Or.inl he
        · exact Or.inr (Or.inl ⟨true, he⟩)
        · exact ih e he

/-- A run over two lists of steps is the run over the first followed by the
run over the second from the state reached. -/
theorem hbRun_append (unmarshal : String → UnmarshalResult) (s : ProxyServer) (c : Conn)
    (st : HbState) (a b : List HbInput) :
    hbRun unmarshal s c st (a ++ b)
      = ((hbRun unmarshal s c st a).1 ++ (hbRun unmarshal s c (hbRun unmarshal s c st a).2 b).1,
          (hbRun unmarshal s c (hbRun unmarshal s c st a).2 b).2) := by
  induction a generalizing st with
  | nil => simp [hbRun]
  | cons i rest ih => simp [hbRun, ih, List.append_assoc]

/-- The events of one step of the heartbeat reader: as many writes and as many
timer resets as heartbeat requests read, and the writes are heartbeat
responses on `c`. -/
theorem hbStep_counts (unmarshal : String → UnmarshalResult) (s : ProxyServer) (c : Conn)
    (st : HbState) (i : HbInput) :
    writeCalls (hbStep unmarshal s c st i).1 = heartbeatsRead unmarshal (hbStep unmarshal s c st i).1 ∧
    timerResets (hbStep unmarshal s c st i).1 = heartbeatsRead unmarshal (hbStep unmarshal s c st i).1 ∧
    replies c (hbStep unmarshal s c st i).1
      = List.replicate (heartbeatsRead unmarshal (hbStep unmarshal s c st i).1)
          ⟨consts.SCHeartBeatRes, ""⟩ := by
  cases st with
  | returned =>
    simp [hbStep, writeCalls, heartbeatsRead, timerResets, replies]
  | reading b =>
    cases i with
    | timerFire t =>
      cases t <;>
        simp [hbStep, writeCalls, heartbeatsRead, timerResets, replies, Event.isWrite,
          Event.isHeartbeatRead]
    | read r w =>
      cases r with
      | eof =>
        simp [hbStep, writeCalls, heartbeatsRead, timerResets, replies, Event.isWrite,
          Event.isHeartbeatRead, isHeartbeatLine]
      | error cc =>
        cases cc <;> cases b <;>
          simp [hbStep, hbContinue, writeCalls, heartbeatsRead, timerResets, replies,
            Event.isWrite, Event.isHeartbeatRead, isHeartbeatLine]
      | line content =>
        cases hu : unmarshal content with
        | error =>
          cases b <;>
            simp [hbStep, hbContinue, writeCalls, heartbeatsRead, timerResets, replies,
              Event.isWrite, Event.isHeartbeatRead, isHeartbeatLine, hu]
        | null =>
          cases b <;>
            simp [hbStep, hbContinue, writeCalls, heartbeatsRead, timerResets, replies,
              Event.isWrite, Event.isHeartbeatRead, isHeartbeatLine, hu, consts.CSHeartBeatReq]
        | value q =>
          by_cases hq : consts.CSHeartBeatReq = q.Type_
          · cases b <;>
              simp [hbStep, hbContinue, writeCalls, heartbeatsRead, timerResets, replies,
                Event.isWrite, Event.isHeartbeatRead, isHeartbeatLine, hu, hq.symm]
          · have hq2 : ¬ q.Type_ = consts.CSHeartBeatReq := fun h => hq h.symm
            cases b <;>
              simp [hbStep, hbContinue, writeCalls, heartbeatsRead, timerResets, replies,
                Event.isWrite, Event.isHeartbeatRead, isHeartbeatLine, hu, hq, hq2]

/-- The counting facts of `hbStep_counts` along a whole run. -/
theorem hbRun_counts (unmarshal : String → UnmarshalResult) (s : ProxyServer) (c : Conn)
    (st : HbState) (inputs : List HbInput) :
    writeCalls (hbRun unmarshal s c st inputs).1
      = heartbeatsRead unmarshal (hbRun unmarshal s c st inputs).1 ∧
    timerResets (hbRun unmarshal s c st inputs).1
      = heartbeatsRead unmarshal (hbRun unmarshal s c st inputs).1 ∧
    replies c (hbRun unmarshal s c st inputs).1
      = List.replicate (heartbeatsRead unmarshal (hbRun unmarshal s c st inputs).1)
          ⟨consts.SCHeartBeatRes, ""⟩ := by
  induction inputs generalizing st with
  | nil => simp [hbRun, writeCalls, heartbeatsRead, timerResets, replies]
  | cons i rest ih =>
    obtain ⟨h1, h2, h3⟩ := hbStep_counts unmarshal s c st i
    obtain ⟨k1, k2, k3⟩ := ih (hbStep unmarshal s c st i).2
    simp only [writeCalls, heartbeatsRead, timerResets] at h1 h2 h3 k1 k2 k3
    simp only [hbRun, writeCalls, heartbeatsRead, timerResets, List.countP_append,
      List.count_append, replies_append, List.replicate_add]
    refine ⟨?_, ?_, ?_⟩
    · rw [h1, k1]
    · rw [h2, k2]
    · rw [h3, k3]

/-- The calls `checkProxy` makes: at most a `Start` or a `GetNewCliConn`. -/
theorem checkProxy_calls (ProxyServers : Registry) (startErr : Option String)
    (req : ClientCtlReq) (c : Conn) :
    (checkProxy ProxyServers startErr req c).calls = [] ∨
    (∃ n, (checkProxy ProxyServers startErr req c).calls = [Event.proxyStart n]) ∨
    (∃ n, (checkProxy ProxyServers startErr req c).calls = [Event.getNewCliConn n c]) := by
  unfold checkProxy
  cases ProxyServers req.ProxyName with
  | none => simp
  | some s =>
    dsimp only
    split
    · simp
    · split
      · split
        · simp
        · cases startErr <;> simp
      · split
        · split <;> simp
        · simp

/-- Shape of a `controlWorker` run that reaches the dispatch loop. -/
theorem controlWorker_loop (unmarshal : String → UnmarshalResult) (ProxyServers : Registry)
    (c : Conn) (env : WorkerEnv) (l : String) (r : ClientCtlReq) (s : ProxyServer)
    (hread : env.firstRead = ReadResult.line l)
    (hparse : unmarshal l = UnmarshalResult.value r)
    (hps : ProxyServers r.ProxyName = some s)
    (hneed : (checkProxy ProxyServers env.startErr r c).needRes = true)
    (hw : env.replyWriteOk = true) :
    controlWorker unmarshal ProxyServers c env
      = ⟨Event.readLine c (ReadResult.line l) :: (checkProxy ProxyServers env.startErr r c).calls
          ++ [Event.write c
                (Payload.res (if !(checkProxy ProxyServers env.startErr r c).succ
                  then ⟨1, (checkProxy ProxyServers env.startErr r c).info⟩ else ⟨0, ""⟩)) true,
              Event.goReadControlMsg s.Name c]
          ++ (dispatchLoop s c env.dispatch).trace
          ++ deferredClose c (dispatchLoop s c env.dispatch).exit,
        (dispatchLoop s c env.dispatch).exit⟩ := by
  simp only [controlWorker, hread, hparse, hneed, hw, hps]
  simp

/-- The work requests written by the dispatch loop. -/
theorem dispatchLoop_requests (s : ProxyServer) (c : Conn) (inputs : List DispatchInput) :
    requestsWritten c (dispatchLoop s c inputs).trace
      = List.replicate (readyObserved inputs) ⟨consts.WorkConn, "", ""⟩ := by
  induction inputs with
  | nil => simp [dispatchLoop, requestsWritten, readyObserved, servedRun, terminator]
  | cons i rest ih =>
    cases i with
    | shutdown =>
      simp [dispatchLoop, requestsWritten, readyObserved, servedRun, terminator]
    | ready ok =>
      cases ok with
      | false =>
        simp [dispatchLoop, requestsWritten, readyObserved, servedRun, terminator]
      | true =>
        simp only [readyObserved, servedRun, terminator] at ih
        simp only [dispatchLoop, requestsWritten, readyObserved, servedRun, terminator, ih,
          if_true, List.takeWhile_cons, List.dropWhile_cons, decide_True, List.length_cons]
        rw [Nat.add_right_comm, List.replicate_succ]

/-- The `Close` calls of the dispatch loop. -/
theorem dispatchLoop_closes (s : ProxyServer) (c : Conn) (inputs : List DispatchInput) :
    (dispatchLoop s c inputs).trace.count (Event.proxyClose s.Name)
      = if terminator inputs = some (DispatchInput.ready false) then 1 else 0 := by
  induction inputs with
  | nil => simp [dispatchLoop, terminator]
  | cons i rest ih =>
    cases i with
    | shutdown => simp [dispatchLoop, terminator]
    | ready ok =>
      cases ok with
      | false => simp [dispatchLoop, terminator]
      | true =>
        simp only [terminator] at ih
        simp [dispatchLoop, terminator, ih, List.count_cons]

/-- How the dispatch loop ends. -/
theorem dispatchLoop_exit (s : ProxyServer) (c : Conn) (inputs : List DispatchInput) :
    (dispatchLoop s c inputs).exit
      = if terminator inputs = none then Exit.blocked else Exit.returned := by
  induction inputs with
  | nil => simp [dispatchLoop, terminator]
  | cons i rest ih =>
    cases i with
    | shutdown => simp [dispatchLoop, terminator]
    | ready ok =>
      cases ok with
      | false => simp [dispatchLoop, terminator]
      | true =>
        simp only [terminator] at ih
        simp [dispatchLoop, terminator, ih]

/-- The dispatch loop does not look past the terminator. -/
theorem dispatchLoop_observed (s : ProxyServer) (c : Conn) (inputs : List DispatchInput) :
    dispatchLoop s c (servedRun inputs ++ (terminator inputs).toList)
      = dispatchLoop s c inputs := by
  induction inputs with
  | nil => simp [dispatchLoop, servedRun, terminator]
  | cons i rest ih =>
    cases i with
    | shutdown => simp [dispatchLoop, servedRun, terminator]
    | ready ok =>
      cases ok with
      | false => simp [dispatchLoop, servedRun, terminator]
      | true =>
        simp only [servedRun, terminator] at ih
        simp [dispatchLoop, servedRun, terminator, ih]

/-! ## The handshake reply (C1) -/

/-- C1: for a parsed handshake request, every reply that `controlWorker`
writes has `Code = 0` and an empty `Msg` exactly when the name is registered,
the secret matches, the type is `CTL_CONN`, the proxy is `Idle` and `Start()`
returned no error; every other reply has `Code = 1`; and a reply is written
in every case except an authenticated `WORK_CONN`. -/
theorem C1_reply_code (unmarshal : String → UnmarshalResult) (ProxyServers : Registry)
    (c : Conn) (env : WorkerEnv) (l : String) (r : ClientCtlReq)
    (hread : env.firstRead = ReadResult.line l)
    (hparse : unmarshal l = UnmarshalResult.value r) :
    (∀ res ∈ replies c (controlWorker unmarshal ProxyServers c env).trace,
      ((res.Code = 0 ∧ res.Msg = "") ↔
        ∃ s, ProxyServers r.ProxyName = some s ∧ r.Passwd = s.Passwd ∧
          r.Type_ = consts.CtlConn ∧ s.Status = Status.Idle ∧ env.startErr = none) ∧
      ((¬ ∃ s, ProxyServers r.ProxyName = some s ∧ r.Passwd = s.Passwd ∧
          r.Type_ = consts.CtlConn ∧ s.Status = Status.Idle ∧ env.startErr = none) →
        res.Code = 1)) ∧
    ((replies c (controlWorker unmarshal ProxyServers c env).trace).length ≤ 1) ∧
    (replies c (controlWorker unmarshal ProxyServers c env).trace = [] ↔
      ∃ s, ProxyServers r.ProxyName = some s ∧ r.Passwd = s.Passwd ∧
        r.Type_ = consts.WorkConn) := by
  have hconst : consts.CtlConn ≠ consts.WorkConn := by decide
  cases hps : ProxyServers r.ProxyName with
  | none =>
    cases hw : env.replyWriteOk <;>
      simp [controlWorker, checkProxy, hread, hparse, hps, hw, replies]
  | some s =>
    by_cases hpw : r.Passwd = s.Passwd
    · by_cases hct : r.Type_ = consts.CtlConn
      · by_cases hst : s.Status = Status.Idle
        · cases hse : env.startErr <;> cases hw : env.replyWriteOk <;>
            simp [controlWorker, checkProxy, hread, hparse, hps, hw, replies, hpw, hct, hst,
              hse, hconst]
        · cases hw : env.replyWriteOk <;>
            simp [controlWorker, checkProxy, hread, hparse, hps, hw, replies, hpw, hct, hst,
              hconst]
      · by_cases hwt : r.Type_ = consts.WorkConn
        · by_cases hst : s.Status = Status.Working <;>
            simp [controlWorker, checkProxy, hread, hparse, hps, replies, hpw, hct, hst, hwt]
        · cases hw : env.replyWriteOk <;>
            simp [controlWorker, checkProxy, hread, hparse, hps, hw, replies, hpw, hct, hwt]
    · cases hw : env.replyWriteOk <;>
        simp [controlWorker, checkProxy, hread, hparse, hps, hw, replies, hpw]

/-- Witness for C1: a `CTL_CONN` with the right secret for the idle proxy `web`. -/
theorem C1_reply_code_witness :
    sampleUnmarshal "ctl web s" = UnmarshalResult.value ⟨consts.CtlConn, "web", "s"⟩ ∧
    (replies 7 (controlWorker sampleUnmarshal (webRegistry Status.Idle) 7
      ⟨ReadResult.line "ctl web s", none, true, []⟩).trace).length ≤ 1 :=
  ⟨by decide, (C1_reply_code sampleUnmarshal (webRegistry Status.Idle) 7
      ⟨ReadResult.line "ctl web s", none, true, []⟩ "ctl web s" ⟨consts.CtlConn, "web", "s"⟩
      rfl (by decide)).2.1⟩

/-! ## Rejected handshakes (C2) -/

/-- C2: the code at two rejected handshakes for the working proxy `web`.  A
`CTL_CONN` with a wrong secret, and a `CTL_CONN` with the right secret while
the proxy is `Working`, are both answered with `Code = 1`; after the reply
the handler still starts the heartbeat reader for `web` on the rejected
socket and enters the dispatch loop (`WaitUserConn` on `web`).  When the
rejected client then disconnects, that heartbeat reader reads EOF and calls
`Close()` on `web`. -/
theorem C2_rejected_handshake_runs_session :
    controlWorker sampleUnmarshal (webRegistry Status.Working) 7
        ⟨ReadResult.line "ctl web x", none, true, []⟩
      = ⟨[Event.readLine 7 (ReadResult.line "ctl web x"),
          Event.write 7 (Payload.res ⟨1, "ProxyName [web], password is not correct"⟩) true,
          Event.goReadControlMsg "web" 7, Event.waitUserConn "web"], Exit.blocked⟩ ∧
    controlWorker sampleUnmarshal (webRegistry Status.Working) 7
        ⟨ReadResult.line "ctl web s", none, true, []⟩
      = ⟨[Event.readLine 7 (ReadResult.line "ctl web s"),
          Event.write 7 (Payload.res ⟨1, "ProxyName [web], already in use"⟩) true,
          Event.goReadControlMsg "web" 7, Event.waitUserConn "web"], Exit.blocked⟩ ∧
    readControlMsgFromClient sampleUnmarshal ⟨"web", "s", Status.Working⟩ 7
        [HbInput.read ReadResult.eof true]
      = ([Event.timerStart, Event.readLine 7 ReadResult.eof, Event.proxyClose "web",
          Event.timerStop], HbState.returned) := by
  decide

/-! ## Work connections (C3) -/

/-- C3: for a parsed handshake request, `controlWorker` calls `GetNewCliConn`
if and only if the name is registered, the secret matches, the type is
`WORK_CONN` and the proxy is `Working`; in that case the whole run is the
read followed by that single call with the accepted socket: no write on the
socket and no close of it. -/
theorem C3_get_new_cli_conn (unmarshal : String → UnmarshalResult) (ProxyServers : Registry)
    (c : Conn) (env : WorkerEnv) (l : String) (r : ClientCtlReq)
    (hread : env.firstRead = ReadResult.line l)
    (hparse : unmarshal l = UnmarshalResult.value r) :
    ((∃ name c1, Event.getNewCliConn name c1 ∈ (controlWorker unmarshal ProxyServers c env).trace) ↔
      ∃ s, ProxyServers r.ProxyName = some s ∧ r.Passwd = s.Passwd ∧
        r.Type_ = consts.WorkConn ∧ s.Status = Status.Working) ∧
    (∀ s, ProxyServers r.ProxyName = some s → r.Passwd = s.Passwd →
      r.Type_ = consts.WorkConn → s.Status = Status.Working →
      controlWorker unmarshal ProxyServers c env
        = ⟨[Event.readLine c (ReadResult.line l), Event.getNewCliConn s.Name c],
            Exit.returned⟩) := by
  have hconst : consts.CtlConn ≠ consts.WorkConn := by decide
  have hloop : ∀ (s : ProxyServer) name c1,
      Event.getNewCliConn name c1 ∉ (dispatchLoop s c env.dispatch).trace := by
    intro s name c1 h
    rcases dispatchLoop_events s c env.dispatch _ h with h | ⟨ok, h⟩ | h <;> cases h
  have hdef : ∀ name c1 x, Event.getNewCliConn name c1 ∉ deferredClose c x := by
    intro name c1 x
    cases x <;> simp [deferredClose]
  cases hps : ProxyServers r.ProxyName with
  | none =>
    cases hw : env.replyWriteOk <;>
      simp [controlWorker, checkProxy, hread, hparse, hps, hw]
  | some s =>
    by_cases hpw : r.Passwd = s.Passwd
    · by_cases hct : r.Type_ = consts.CtlConn
      · have hwt : r.Type_ ≠ consts.WorkConn := by rw [hct]; exact hconst
        by_cases hst : s.Status = Status.Idle
        · cases hse : env.startErr <;> cases hw : env.replyWriteOk <;>
            simp [controlWorker, checkProxy, hread, hparse, hps, hw, hpw, hct, hst, hse,
              hconst, hloop, hdef]
        · cases hw : env.replyWriteOk <;>
            simp [controlWorker, checkProxy, hread, hparse, hps, hw, hpw, hct, hst,
              hconst, hloop, hdef]
      · by_cases hwt : r.Type_ = consts.WorkConn
        · by_cases hst : s.Status = Status.Working <;>
            simp [controlWorker, checkProxy, hread, hparse, hps, hpw, hst, hwt,
              Ne.symm hconst]
        · cases hw : env.replyWriteOk <;>
            simp [controlWorker, checkProxy, hread, hparse, hps, hw, hpw, hct, hwt,
              hloop, hdef]
    · cases hw : env.replyWriteOk <;>
        simp [controlWorker, checkProxy, hread, hparse, hps, hw, hpw, hloop, hdef]

/-- Witness for C3: a `WORK_CONN` with the right secret for the working proxy `web`. -/
theorem C3_get_new_cli_conn_witness :
    (sampleUnmarshal "work web s" = UnmarshalResult.value ⟨consts.WorkConn, "web", "s"⟩ ∧
      webRegistry Status.Working "web" = some ⟨"web", "s", Status.Working⟩) ∧
    controlWorker sampleUnmarshal (webRegistry Status.Working) 7
        ⟨ReadResult.line "work web s", none, true, []⟩
      = ⟨[Event.readLine 7 (ReadResult.line "work web s"), Event.getNewCliConn "web" 7],
          Exit.returned⟩ :=
  ⟨⟨by decide, by decide⟩,
    (C3_get_new_cli_conn sampleUnmarshal (webRegistry Status.Working) 7
      ⟨ReadResult.line "work web s", none, true, []⟩ "work web s" ⟨consts.WorkConn, "web", "s"⟩
      rfl (by decide)).2 ⟨"web", "s", Status.Working⟩ (by decide) rfl rfl rfl⟩

/-! ## The heartbeat round trip (C5) -/

/-- C5: while the heartbeat reader keeps reading, a line that decodes to a
record of type `HEARTBEAT_REQ` adds to the trace exactly one `timer.Reset`
and one write of the response `Code = HEARTBEAT_RES` on the same socket, and
any other line adds neither; over a whole run the number of writes, the
number of timer resets and the number of heartbeat requests read are equal,
and the responses written on the socket are all `Code = HEARTBEAT_RES`. -/
theorem C5_heartbeat_round_trip (unmarshal : String → UnmarshalResult) (s : ProxyServer)
    (c : Conn) :
    (∀ (pre : List HbInput) (b : Bool) (l : String) (w : Bool),
      (readControlMsgFromClient unmarshal s c pre).2 = HbState.reading b →
      (readControlMsgFromClient unmarshal s c (pre ++ [HbInput.read (ReadResult.line l) w])).1
        = (readControlMsgFromClient unmarshal s c pre).1
          ++ Event.readLine c (ReadResult.line l)
            :: ((if isHeartbeatLine unmarshal (ReadResult.line l) = true then
                  [Event.timerReset,
                    Event.write c (Payload.res ⟨consts.SCHeartBeatRes, ""⟩) w]
                else [])
              ++ (if b = true then [] else [Event.timerStop]))) ∧
    (∀ inputs : List HbInput,
      writeCalls (readControlMsgFromClient unmarshal s c inputs).1
        = heartbeatsRead unmarshal (readControlMsgFromClient unmarshal s c inputs).1 ∧
      timerResets (readControlMsgFromClient unmarshal s c inputs).1
        = heartbeatsRead unmarshal (readControlMsgFromClient unmarshal s c inputs).1 ∧
      replies c (readControlMsgFromClient unmarshal s c inputs).1
        = List.replicate
            (heartbeatsRead unmarshal (readControlMsgFromClient unmarshal s c inputs).1)
            ⟨consts.SCHeartBeatRes, ""⟩) := by
  constructor
  · intro pre b l w hst
    simp only [readControlMsgFromClient] at hst ⊢
    rw [hbRun_append, hst]
    cases hu : unmarshal l with
    | error =>
      cases b <;> simp [hbRun, hbStep, hbContinue, isHeartbeatLine, hu]
    | null =>
      cases b <;>
        simp [hbRun, hbStep, hbContinue, isHeartbeatLine, hu, consts.CSHeartBeatReq]
    | value q =>
      by_cases hq : consts.CSHeartBeatReq = q.Type_
      · cases b <;> simp [hbRun, hbStep, hbContinue, isHeartbeatLine, hu, hq.symm]
      · have hq2 : ¬ q.Type_ = consts.CSHeartBeatReq := fun h => hq h.symm
        cases b <;> simp [hbRun, hbStep, hbContinue, isHeartbeatLine, hu, hq, hq2]
  · intro inputs
    obtain ⟨h1, h2, h3⟩ := hbRun_counts unmarshal s c (HbState.reading true) inputs
    simp only [writeCalls, heartbeatsRead, timerResets] at h1 h2 h3
    simp only [readControlMsgFromClient, writeCalls, heartbeatsRead, timerResets]
    refine ⟨?_, ?_, ?_⟩
    · simpa [List.countP_cons, Event.isWrite, Event.isHeartbeatRead] using h1
    · simpa [List.countP_cons, List.count_cons, Event.isHeartbeatRead] using h2
    · simpa [List.countP_cons, replies, Event.isHeartbeatRead] using h3

/-- Witness for C5: after one heartbeat has been read, a second heartbeat
line adds one reset and one response. -/
theorem C5_heartbeat_round_trip_witness :
    (readControlMsgFromClient sampleUnmarshal ⟨"web", "s", Status.Working⟩ 7
        [HbInput.read (ReadResult.line "heartbeat") true]).2 = HbState.reading true ∧
    (readControlMsgFromClient sampleUnmarshal ⟨"web", "s", Status.Working⟩ 7
        ([HbInput.read (ReadResult.line "heartbeat") true]
          ++ [HbInput.read (ReadResult.line "heartbeat") false])).1
      = (readControlMsgFromClient sampleUnmarshal ⟨"web", "s", Status.Working⟩ 7
          [HbInput.read (ReadResult.line "heartbeat") true]).1
        ++ Event.readLine 7 (ReadResult.line "heartbeat")
          :: ((if isHeartbeatLine sampleUnmarshal (ReadResult.line "heartbeat") = true then
                [Event.timerReset,
                  Event.write 7 (Payload.res ⟨consts.SCHeartBeatRes, ""⟩) false]
              else [])
            ++ (if true = true then [] else [Event.timerStop])) :=
  ⟨by decide,
    (C5_heartbeat_round_trip sampleUnmarshal ⟨"web", "s", Status.Working⟩ 7).1
      [HbInput.read (ReadResult.line "heartbeat") true] true "heartbeat" false (by decide)⟩

/-! ## Read errors of the heartbeat reader (C6) -/

/-- C6, as stated, fails: when the read fails with an error other than EOF
and the connection is closed, the reader returns and has not called `Close()`
on the proxy. -/
theorem C6_closed_connection_exit_without_close :
    readControlMsgFromClient sampleUnmarshal ⟨"web", "s", Status.Working⟩ 7
        [HbInput.read (ReadResult.error true) true]
      = ([Event.timerStart, Event.readLine 7 (ReadResult.error true), Event.timerStop],
          HbState.returned) ∧
    Event.proxyClose "web" ∉
      (readControlMsgFromClient sampleUnmarshal ⟨"web", "s", Status.Working⟩ 7
        [HbInput.read (ReadResult.error true) true]).1 := by
  decide

/-- C6, amended: from any point where the heartbeat reader is reading, a read
that returns EOF makes it call `Close()` on the proxy and return; a read that
fails with another error while the connection is closed makes it return with
no call on the proxy; any other read error adds no call on the proxy, and the
reader keeps reading unless the watchdog has fired since the last test of
`isContinueRead`. -/
theorem C6_read_errors (unmarshal : String → UnmarshalResult) (s : ProxyServer) (c : Conn)
    (pre : List HbInput) (b w : Bool)
    (hst : (readControlMsgFromClient unmarshal s c pre).2 = HbState.reading b) :
    readControlMsgFromClient unmarshal s c (pre ++ [HbInput.read ReadResult.eof w])
      = ((readControlMsgFromClient unmarshal s c pre).1
          ++ [Event.readLine c ReadResult.eof, Event.proxyClose s.Name, Event.timerStop],
        HbState.returned) ∧
    readControlMsgFromClient unmarshal s c (pre ++ [HbInput.read (ReadResult.error true) w])
      = ((readControlMsgFromClient unmarshal s c pre).1
          ++ [Event.readLine c (ReadResult.error true), Event.timerStop],
        HbState.returned) ∧
    readControlMsgFromClient unmarshal s c (pre ++ [HbInput.read (ReadResult.error false) w])
      = ((readControlMsgFromClient unmarshal s c pre).1
          ++ Event.readLine c (ReadResult.error false)
            :: (if b = true then [] else [Event.timerStop]),
        if b = true then HbState.reading true else HbState.returned) := by
  simp only [readControlMsgFromClient] at hst ⊢
  rw [hbRun_append, hbRun_append, hbRun_append, hst]
  cases b <;> simp [hbRun, hbStep, hbContinue]

/-- Witness for C6: the three read errors after one heartbeat has been read. -/
theorem C6_read_errors_witness :
    (readControlMsgFromClient sampleUnmarshal ⟨"web", "s", Status.Working⟩ 7
        [HbInput.read (ReadResult.line "heartbeat") true]).2 = HbState.reading true ∧
    readControlMsgFromClient sampleUnmarshal ⟨"web", "s", Status.Working⟩ 7
        ([HbInput.read (ReadResult.line "heartbeat") true]
          ++ [HbInput.read (ReadResult.error false) true])
      = ((readControlMsgFromClient sampleUnmarshal ⟨"web", "s", Status.Working⟩ 7
            [HbInput.read (ReadResult.line "heartbeat") true]).1
          ++ Event.readLine 7 (ReadResult.error false)
            :: (if true = true then [] else [Event.timerStop]),
        if true = true then HbState.reading true else HbState.returned) :=
  ⟨by decide,
    (C6_read_errors sampleUnmarshal ⟨"web", "s", Status.Working⟩ 7
      [HbInput.read (ReadResult.line "heartbeat") true] true true (by decide)).2.2⟩

/-! ## The dispatch loop (C7) -/

/-- C7: in a `controlWorker` run that reaches the dispatch loop, the work
requests written on the control socket are one per "ready" result up to and
including the first failed write or shutdown; `Close()` is called on the
proxy once if the loop ended on a failed write and not at all otherwise; the
handler returns exactly when there was a shutdown or a failed write; and no
result after that point has any effect on the run. -/
theorem C7_dispatch_accounting (unmarshal : String → UnmarshalResult) (ProxyServers : Registry)
    (c : Conn) (env : WorkerEnv) (l : String) (r : ClientCtlReq) (s : ProxyServer)
    (hread : env.firstRead = ReadResult.line l)
    (hparse : unmarshal l = UnmarshalResult.value r)
    (hps : ProxyServers r.ProxyName = some s)
    (hneed : (checkProxy ProxyServers env.startErr r c).needRes = true)
    (hw : env.replyWriteOk = true) :
    requestsWritten c (controlWorker unmarshal ProxyServers c env).trace
      = List.replicate (readyObserved env.dispatch) ⟨consts.WorkConn, "", ""⟩ ∧
    (controlWorker unmarshal ProxyServers c env).trace.count (Event.proxyClose s.Name)
      = (if terminator env.dispatch = some (DispatchInput.ready false) then 1 else 0) ∧
    (controlWorker unmarshal ProxyServers c env).exit
      = (if terminator env.dispatch = none then Exit.blocked else Exit.returned) ∧
    controlWorker unmarshal ProxyServers c
        ⟨env.firstRead, env.startErr, env.replyWriteOk,
          servedRun env.dispatch ++ (terminator env.dispatch).toList⟩
      = controlWorker unmarshal ProxyServers c env := by
  have hloop := controlWorker_loop unmarshal ProxyServers c env l r s hread hparse hps hneed hw
  have hloop2 := controlWorker_loop unmarshal ProxyServers c
    ⟨env.firstRead, env.startErr, env.replyWriteOk,
      servedRun env.dispatch ++ (terminator env.dispatch).toList⟩ l r s hread hparse hps
    hneed hw
  have hdef : ∀ x, requestsWritten c (deferredClose c x) = [] := by
    intro x; cases x <;> rfl
  have hdefc : ∀ x, (deferredClose c x).count (Event.proxyClose s.Name) = 0 := by
    intro x; cases x <;> simp [deferredClose]
  refine ⟨?_, ?_, ?_, ?_⟩
  · rw [hloop]
    rcases checkProxy_calls ProxyServers env.startErr r c with h | ⟨n, h⟩ | ⟨n, h⟩ <;>
      simp [h, requestsWritten, hdef, dispatchLoop_requests]
  · rw [hloop]
    rcases checkProxy_calls ProxyServers env.startErr r c with h | ⟨n, h⟩ | ⟨n, h⟩ <;>
      simp [h, List.count_cons, hdefc, dispatchLoop_closes]
  · rw [hloop]
    exact dispatchLoop_exit s c env.dispatch
  · rw [hloop2, hloop]
    simp only [dispatchLoop_observed]

/-- Witness for C7: the proxy `web` is activated, two user connections are
announced, the third announcement fails to write; a later result is not seen. -/
theorem C7_dispatch_accounting_witness :
    (sampleUnmarshal "ctl web s" = UnmarshalResult.value ⟨consts.CtlConn, "web", "s"⟩ ∧
      webRegistry Status.Idle "web" = some ⟨"web", "s", Status.Idle⟩ ∧
      (checkProxy (webRegistry Status.Idle) none ⟨consts.CtlConn, "web", "s"⟩ 7).needRes = true) ∧
    requestsWritten 7 (controlWorker sampleUnmarshal (webRegistry Status.Idle) 7
        ⟨ReadResult.line "ctl web s", none, true,
          [DispatchInput.ready true, DispatchInput.ready true, DispatchInput.ready false,
            DispatchInput.ready true]⟩).trace
      = List.replicate
          (readyObserved [DispatchInput.ready true, DispatchInput.ready true,
            DispatchInput.ready false, DispatchInput.ready true])
          ⟨consts.WorkConn, "", ""⟩ :=
  ⟨⟨by decide, by decide, by decide⟩,
    (C7_dispatch_accounting sampleUnmarshal (webRegistry Status.Idle) 7
      ⟨ReadResult.line "ctl web s", none, true,
        [DispatchInput.ready true, DispatchInput.ready true, DispatchInput.ready false,
          DispatchInput.ready true]⟩
      "ctl web s" ⟨consts.CtlConn, "web", "s"⟩ ⟨"web", "s", Status.Idle⟩
      rfl (by decide) (by decide) (by decide) rfl).1⟩

/-! ## The work-request record (C8) -/

/-- C8, as stated, fails: for the registry entry `web` / `s`, the record
written for a queued user connection has empty `ProxyName` and `Passwd`; it
is not the record with `ProxyName = "web"` and `Passwd = "s"`. -/
theorem C8_work_request_fields_empty :
    requestsWritten 7 (controlWorker sampleUnmarshal (webRegistry Status.Idle) 7
        ⟨ReadResult.line "ctl web s", none, true, [DispatchInput.ready true]⟩).trace
      = [⟨consts.WorkConn, "", ""⟩] ∧
    (⟨consts.WorkConn, "", ""⟩ : ClientCtlReq) ≠ ⟨consts.WorkConn, "web", "s"⟩ := by
  decide

/-- C8, amended: the record the dispatch loop writes for a queued user
connection is the request record with `Type = WORK_CONN` (2) and empty
`ProxyName` and `Passwd`, and every request record `controlWorker` writes on
the control socket is that record. -/
theorem C8_work_request_record (unmarshal : String → UnmarshalResult) (ProxyServers : Registry)
    (c : Conn) (env : WorkerEnv) (s : ProxyServer) (ok : Bool) (rest : List DispatchInput) :
    (requestsWritten c (dispatchLoop s c (DispatchInput.ready ok :: rest)).trace).head?
      = some ⟨2, "", ""⟩ ∧
    ∃ n, requestsWritten c (controlWorker unmarshal ProxyServers c env).trace
      = List.replicate n ⟨2, "", ""⟩ := by
  constructor
  · cases ok <;> simp [dispatchLoop, requestsWritten, consts.WorkConn]
  · have hdef : ∀ x, requestsWritten c (deferredClose c x) = [] := by
      intro x; cases x <;> rfl
    have hcalls : ∀ q, requestsWritten c (checkProxy ProxyServers env.startErr q c).calls
        = [] := by
      intro q
      rcases checkProxy_calls ProxyServers env.startErr q c with h | ⟨n, h⟩ | ⟨n, h⟩ <;>
        simp [h, requestsWritten]
    cases hr : env.firstRead with
    | eof => exact ⟨0, by simp [controlWorker, hr, requestsWritten]⟩
    | error cc => exact ⟨0, by simp [controlWorker, hr, requestsWritten]⟩
    | line l =>
      cases hu : unmarshal l with
      | error => exact ⟨0, by simp [controlWorker, hr, hu, requestsWritten]⟩
      | null => exact ⟨0, by simp [controlWorker, hr, hu, requestsWritten]⟩
      | value q =>
        cases hn : (checkProxy ProxyServers env.startErr q c).needRes with
        | false =>
          exact ⟨0, by simp [controlWorker, hr, hu, hn, requestsWritten, hcalls]⟩
        | true =>
          cases hw : env.replyWriteOk with
          | false =>
            exact ⟨0, by simp [controlWorker, hr, hu, hn, hw, requestsWritten, hcalls]⟩
          | true =>
            cases hps : ProxyServers q.ProxyName with
            | none =>
              exact ⟨0, by simp [controlWorker, hr, hu, hn, hw, hps, requestsWritten, hcalls]⟩
            | some p =>
              refine ⟨readyObserved env.dispatch, ?_⟩
              simp [controlWorker, hr, hu, hn, hw, hps, requestsWritten, hcalls, hdef,
                dispatchLoop_requests, consts.WorkConn]

/-! ## Client and server agree on the work handshake (C9) -/

/-- C9: when the relay dial succeeds, `GetRemoteConn` makes exactly one write,
on the relay socket, of the record `Type = WORK_CONN`, `ProxyName = p.Name`,
`Passwd = p.Passwd` (and writes nothing when the dial fails); and
`checkProxy`, given that record and a registry whose entry for `p.Name` has
that secret and status `Working`, returns `succ = true`, `needRes = false`
and calls `GetNewCliConn` with the socket; `controlWorker` reading a line
that decodes to that record hands the socket over without reply or close. -/
theorem C9_work_handshake_agreement (p : ProxyClient) (addr : String) (port : Int)
    (dial : DialResult) (w : Bool) (ProxyServers : Registry) (startErr : Option String)
    (srv : ProxyServer) (c : Conn)
    (hps : ProxyServers p.Name = some srv) (hpw : srv.Passwd = p.Passwd)
    (hst : srv.Status = Status.Working) :
    requestsWritten dial.c (p.GetRemoteConn addr port dial w).trace
      = (if dial.ok = true then [⟨consts.WorkConn, p.Name, p.Passwd⟩] else []) ∧
    writeCalls (p.GetRemoteConn addr port dial w).trace = (if dial.ok = true then 1 else 0) ∧
    checkProxy ProxyServers startErr ⟨consts.WorkConn, p.Name, p.Passwd⟩ c
      = ⟨true, "", false, [Event.getNewCliConn srv.Name c]⟩ ∧
    ∀ (unmarshal : String → UnmarshalResult) (env : WorkerEnv) (l : String),
      env.firstRead = ReadResult.line l →
      unmarshal l = UnmarshalResult.value ⟨consts.WorkConn, p.Name, p.Passwd⟩ →
      controlWorker unmarshal ProxyServers c env
        = ⟨[Event.readLine c (ReadResult.line l), Event.getNewCliConn srv.Name c],
            Exit.returned⟩ := by
  have hconst : consts.WorkConn ≠ consts.CtlConn := by decide
  have hchk : checkProxy ProxyServers startErr ⟨consts.WorkConn, p.Name, p.Passwd⟩ c
      = ⟨true, "", false, [Event.getNewCliConn srv.Name c]⟩ := by
    simp [checkProxy, hps, hpw, hst, hconst]
  refine ⟨?_, ?_, hchk, ?_⟩
  · cases hd : dial.ok <;> cases w <;>
      simp [ProxyClient.GetRemoteConn, hd, requestsWritten]
  · cases hd : dial.ok <;> cases w <;>
      simp [ProxyClient.GetRemoteConn, hd, writeCalls, Event.isWrite]
  · intro unmarshal env l hread hparse
    have hchk2 : checkProxy ProxyServers env.startErr ⟨consts.WorkConn, p.Name, p.Passwd⟩ c
        = ⟨true, "", false, [Event.getNewCliConn srv.Name c]⟩ := by
      simp [checkProxy, hps, hpw, hst, hconst]
    simp [controlWorker, hread, hparse, hchk2]

/-- Witness for C9: the client `web` / `s` against the working proxy `web`. -/
theorem C9_work_handshake_agreement_witness :
    (webRegistry Status.Working "web" = some ⟨"web", "s", Status.Working⟩) ∧
    checkProxy (webRegistry Status.Working) none ⟨consts.WorkConn, "web", "s"⟩ 7
      = ⟨true, "", false, [Event.getNewCliConn "web" 7]⟩ :=
  ⟨by decide,
    (C9_work_handshake_agreement ⟨"web", "s", 8080⟩ "relay.example" 7000 ⟨5, true⟩ true
      (webRegistry Status.Working) none ⟨"web", "s", Status.Working⟩ 7
      (by decide) rfl rfl).2.2.1⟩

/-! ## Failures of `StartTunnel` (C10) -/

/-- C10: the code at the two failures that follow a successful local dial.
When the relay dial fails, and when the write of the `WORK_CONN` record
fails, `StartTunnel` returns an error, has closed only the relay handle, and
has not closed the local-service socket it opened; no byte pump was started. -/
theorem C10_local_socket_left_open :
    (∀ (p : ProxyClient) (addr : String) (port : Int) (lc rc : Conn) (w : Bool),
      p.StartTunnel addr port ⟨lc, true⟩ ⟨rc, false⟩ w
        = ⟨[Event.connectServer "127.0.0.1" p.LocalPort lc true,
            Event.connectServer addr port rc false, Event.connClose rc], false⟩) ∧
    (∀ (p : ProxyClient) (addr : String) (port : Int) (lc rc : Conn),
      p.StartTunnel addr port ⟨lc, true⟩ ⟨rc, true⟩ false
        = ⟨[Event.connectServer "127.0.0.1" p.LocalPort lc true,
            Event.connectServer addr port rc true,
            Event.write rc (Payload.req ⟨consts.WorkConn, p.Name, p.Passwd⟩) false,
            Event.connClose rc], false⟩) ∧
    Event.connClose 1 ∉
      (ProxyClient.StartTunnel ⟨"web", "s", 8080⟩ "relay.example" 7000 ⟨1, true⟩ ⟨2, false⟩
        true).trace ∧
    Event.connClose 1 ∉
      (ProxyClient.StartTunnel ⟨"web", "s", 8080⟩ "relay.example" 7000 ⟨1, true⟩ ⟨2, true⟩
        false).trace := by
  refine ⟨?_, ?_, by decide, by decide⟩
  · intro p addr port lc rc w
    simp [ProxyClient.StartTunnel, ProxyClient.GetLocalConn, ProxyClient.GetRemoteConn]
  · intro p addr port lc rc
    simp [ProxyClient.StartTunnel, ProxyClient.GetLocalConn, ProxyClient.GetRemoteConn]

/-! ## Protocol errors on the handshake (C4) -/

/-- C4: the code at three protocol errors of the initial handshake.  When the
first read fails, when the first line does not decode, and when an
authenticated `WORK_CONN` names a proxy that is not `Working`, `controlWorker`
returns after the read without closing the socket. -/
theorem C4_handshake_errors_leave_socket_open :
    (∀ (unmarshal : String → UnmarshalResult) (ProxyServers : Registry) (c : Conn)
        (startErr : Option String) (replyWriteOk : Bool) (dispatch : List DispatchInput),
      controlWorker unmarshal ProxyServers c ⟨ReadResult.eof, startErr, replyWriteOk, dispatch⟩
        = ⟨[Event.readLine c ReadResult.eof], Exit.returned⟩) ∧
    controlWorker sampleUnmarshal (webRegistry Status.Idle) 7
        ⟨ReadResult.line "garbage", none, true, []⟩
      = ⟨[Event.readLine 7 (ReadResult.line "garbage")], Exit.returned⟩ ∧
    controlWorker sampleUnmarshal (webRegistry Status.Idle) 7
        ⟨ReadResult.line "work web s", none, true, []⟩
      = ⟨[Event.readLine 7 (ReadResult.line "work web s")], Exit.returned⟩ := by
  refine ⟨?_, by decide, by decide⟩
  intro unmarshal ProxyServers c startErr replyWriteOk dispatch
  rfl

end frp
